import Mathlib

/-!
Verification development for the GateRTO-1000 gate automation firmware
(two ESP32 nodes: the Actuator Node `GateServer` and the Trigger Node
`GateControl`).  The Rust sources are shallowly embedded below: pure decision
logic becomes Lean functions, fallible HAL primitives are driven by explicit
environments of primitive results, the trigger poll loop becomes structural
recursion over a list of GPIO samples, and the concurrent pulse handlers
become a small-step relation guarded by the pin mutex.
-/

namespace GateRTO

/-- Outcome of running an embedded code path: `ok` is a normal return,
`error` is an `Err` propagated to the caller (Rust `?`), `panicked` is a
process abort (Rust `unwrap`/`expect` on a failed result), and `looping`
means the supplied trace of primitive results was exhausted while the code
was still inside one of its retry loops. -/
inductive Outcome (α : Type) where
  | ok : α → Outcome α
  | error : Outcome α
  | panicked : Outcome α
  | looping : Outcome α
deriving DecidableEq

/-! ## Gate Position Estimator (GateServer/src/main.rs, `gate_status`)

The Rust function locks the `GATE_OPENED` pin, sets it floating, reads it; if
high it reports `0` (opened), otherwise it locks `GATE_CLOSED`, sets it
floating, reads it; high means `1` (closed), low means `2` (middle). -/

/-- Embeds the decision logic of `gate_status`: inputs are the electrical
levels read from the two sensor pins (`true` = electrically high). -/
def gate_status (openedHigh closedHigh : Bool) : Nat :=
  if openedHigh then 0
  else if closedHigh then 1
  else 2

/-- Results of the fallible HAL primitives that `gate_status` unwraps:
whether each `set_pull(Pull::Floating)` call succeeds, and the level each
sensor pin reads. -/
structure PinEnv where
  openedSetPullOk : Bool
  openedHigh : Bool
  closedSetPullOk : Bool
  closedHigh : Bool
deriving DecidableEq

/-- Embeds `gate_status` together with its `.unwrap()` calls on the
`set_pull` results: a failed primitive panics the process.  The closed-sensor
pin is only touched when the opened-sensor pin read low, mirroring the
nested `if` in the source. -/
def gate_status_run (e : PinEnv) : Outcome Nat :=
  if ¬ e.openedSetPullOk then .panicked
  else if e.openedHigh then .ok 0
  else if ¬ e.closedSetPullOk then .panicked
  else if e.closedHigh then .ok 1
  else .ok 2

/-- Embeds `gate_json_status`: formats the status byte as `{"s":N}`. -/
def gate_json_status (openedHigh closedHigh : Bool) : String :=
  "\x7b\"s\":" ++ toString (gate_status openedHigh closedHigh) ++ "\x7d"

/-! ## Pulsed Actuator handlers (GateServer/src/main.rs, `gate_sbs`, `gate_open`)

Each handler locks its relay pin, drives it high, blocks 200 ms, drives it
low, and returns the constant body `{"s":2}`.  We record the sequence of
observable actions and the final pin state. -/

/-- The two relay outputs of the Actuator Node. -/
inductive RelayPin where
  | gateOpenPin
  | gateSbsPin
deriving DecidableEq

/-- Observable primitive actions performed by a pulse handler. -/
inductive SAction where
  | lockAcquire : RelayPin → SAction
  | setHigh : RelayPin → SAction
  | delayMs : Nat → SAction
  | setLow : RelayPin → SAction
  | lockRelease : RelayPin → SAction
deriving DecidableEq

/-- Electrical levels of the two relay outputs (`true` = high). -/
structure RelayState where
  openLevel : Bool
  sbsLevel : Bool
deriving DecidableEq

/-- Embeds `gate_sbs`: lock the SBS pin, raise it, hold 200 ms, lower it,
release the lock (guard drop), reply `{"s":2}`. -/
def gate_sbs_handler (s : RelayState) : RelayState × List SAction × String :=
  let s1 := { s with sbsLevel := true }
  let s2 := { s1 with sbsLevel := false }
  (s2,
   [.lockAcquire .gateSbsPin, .setHigh .gateSbsPin, .delayMs 200,
    .setLow .gateSbsPin, .lockRelease .gateSbsPin],
   "\x7b\"s\":2\x7d")

/-- Embeds `gate_open`: identical to `gate_sbs` but on the full-cycle pin. -/
def gate_open_handler (s : RelayState) : RelayState × List SAction × String :=
  let s1 := { s with openLevel := true }
  let s2 := { s1 with openLevel := false }
  (s2,
   [.lockAcquire .gateOpenPin, .setHigh .gateOpenPin, .delayMs 200,
    .setLow .gateOpenPin, .lockRelease .gateOpenPin],
   "\x7b\"s\":2\x7d")

/-! ## WiFi Connectivity Manager (GateControl/src/wifi.rs, `connect_wifi`)

`connect_wifi(ssid, psk)` computes the auth method from the passphrase,
performs setup (`take` NVS, event loop, `EspWifi::new`, `set_configuration`,
`start` — each with `?`), then loops: `scan()?`; if the SSID is absent, reset
`last_rssi` to `None`, sleep 1 s and rescan; if present, latch the RSSI when
`last_rssi` is `None`, build a client configuration (the SSID/PSK
conversions `expect`-panic when they do not fit the fixed-size buffers),
`set_configuration(..)?`, then `connect()` and `wait_netif_up()` — on either
failure it restarts the scan loop — and finally `get_ip_info()?` before
returning `Ok((wifi, last_rssi.unwrap()))`. -/

/-- WiFi authentication methods used by the firmware. -/
inductive AuthMethod where
  | noAuth
  | wpa2Personal
deriving DecidableEq

/-- The client configuration handed to `set_configuration` on each
association attempt. -/
structure ClientConf where
  ssid : String
  password : String
  channel : Option Nat
  authMethod : AuthMethod
deriving DecidableEq

/-- Result of one `wifi.scan()` call: the call itself errored, the target
SSID was not among the results, or it was found on a channel with a signal
strength. -/
inductive ScanOutcome where
  | err
  | notFound
  | found : Nat → Int → ScanOutcome
deriving DecidableEq

/-- Primitive results consumed by one iteration of the `'wifi_loop`. -/
structure ScanStep where
  scan : ScanOutcome
  setConfOk : Bool
  connectOk : Bool
  netifOk : Bool
  ipInfoOk : Bool
deriving DecidableEq

/-- The auth-method selection at the top of `connect_wifi`: empty
passphrase means open (no-auth) association, otherwise WPA2-Personal. -/
def authMethodOf (psk : String) : AuthMethod :=
  if psk.isEmpty then .noAuth else .wpa2Personal

/-- Embeds the `'wifi_loop` of `connect_wifi`.  `lastRssi` is the
`last_rssi : Option<i8>` latch; the second component of the result collects
every `ClientConf` passed to `set_configuration` inside the loop, in order.
The trace of primitive results drives the loop; when it runs out the loop is
still spinning (`Outcome.looping`). -/
def connectLoop (ssid psk : String) (auth : AuthMethod) :
    Option Int → List ScanStep → Outcome Int × List ClientConf
  | _, [] => (.looping, [])
  | lastRssi, step :: rest =>
    match step.scan with
    | .err => (.error, [])
    | .notFound => connectLoop ssid psk auth none rest
    | .found ch rssi =>
      let latched := if lastRssi.isNone then some rssi else lastRssi
      if 32 < ssid.utf8ByteSize then (.panicked, [])
      else if 64 < psk.utf8ByteSize then (.panicked, [])
      else
        let conf : ClientConf :=
          { ssid := ssid, password := psk, channel := some ch, authMethod := auth }
        if ¬ step.setConfOk then (.error, [conf])
        else if ¬ step.connectOk then
          let r := connectLoop ssid psk auth latched rest
          (r.1, conf :: r.2)
        else if ¬ step.netifOk then
          let r := connectLoop ssid psk auth latched rest
          (r.1, conf :: r.2)
        else if ¬ step.ipInfoOk then (.error, [conf])
        else
          match latched with
          | some r => (.ok r, [conf])
          | none => (.panicked, [conf])

/-- Embeds `connect_wifi`: `setupOk` stands for the conjunction of the
pre-loop fallible steps (NVS take, event loop take, `EspWifi::new`,
`BlockingWifi::wrap`, initial `set_configuration`, `start`), each of which
propagates its error with `?`. -/
def connect_wifi (ssid psk : String) (setupOk : Bool) (steps : List ScanStep) :
    Outcome Int × List ClientConf :=
  if ¬ setupOk then (.error, [])
  else connectLoop ssid psk (authMethodOf psk) none steps

/-- First RSSI ever observed for the target network in a trace: the signal
strength of the first `found` scan. -/
def firstFoundRssi : List ScanStep → Option Int
  | [] => none
  | step :: rest =>
    match step.scan with
    | .found _ rssi => some rssi
    | _ => firstFoundRssi rest

/-- Whether a scan outcome found the target network. -/
def ScanOutcome.isFound : ScanOutcome → Bool
  | .found _ _ => true
  | _ => false

/-! ## Trigger Node startup (GateControl/src/main.rs, lines 150–166)

After `connect_wifi` returns `(wifi, rssi)`, the main function logs, wraps an
HTTP client and, when `rssi < app_config.max_rssi`, sets the LED red, fires
one GET to `gate_open_url` (result discarded) and sleeps 1 s; it then sets
the LED green and pulls the SBS input up before entering the poll loop. -/

/-- Observable actions of the Trigger Node's main flow. -/
inductive TAction where
  | ledSet : Nat → Nat → Nat → TAction
  | httpGet : String → TAction
  | delayMs : Nat → TAction
  | pullUpSbs : TAction
deriving DecidableEq

/-- The `toml_cfg` configuration of the Trigger Node. -/
structure TriggerConfig where
  wifi_ssid : String
  wifi_psk : String
  max_rssi : Int
  gate_open_url : String
  gate_sbs_url : String
deriving DecidableEq

/-- Embeds the segment of the Trigger Node's `main` between a successful
`connect_wifi` (whose session baseline RSSI is `sessionRssi`) and the top of
the SBS poll loop. -/
def trigger_startup (cfg : TriggerConfig) (sessionRssi : Int) : List TAction :=
  (if sessionRssi < cfg.max_rssi then
    [.ledSet 50 0 0, .httpGet cfg.gate_open_url, .delayMs 1000]
  else [])
  ++ [.ledSet 0 50 0, .pullUpSbs]

/-- Number of HTTP GET dispatches to a given URL in an action trace. -/
def countGet (url : String) : List TAction → Nat
  | [] => 0
  | .httpGet u :: rest => (if u = url then 1 else 0) + countGet url rest
  | _ :: rest => countGet url rest

/-! ## Trigger Node SBS poll loop (GateControl/src/main.rs, lines 169–195)

Each outer iteration samples the SBS input once; a low sample (button
pressed) dispatches one GET to `gate_sbs_url`, waits 100 ms, then an inner
`while gate_sbs.is_low()` loop re-samples every 100 ms until the input reads
high; a high sample just sleeps 100 ms.  We embed the loop over a finite
list of GPIO samples (`true` = electrically low / pressed) and count the
dispatches; the model covers normal operation, i.e. the session stays
connected and the HAL reads succeed. -/

mutual

/-- Outer poll loop: a pressed sample dispatches once and falls into the
release-wait loop; an idle sample polls again. -/
def sbsPoll : List Bool → Nat
  | [] => 0
  | pressed :: rest => if pressed then 1 + sbsWait rest else sbsPoll rest

/-- Inner `while is_low` wait: pressed samples are consumed without
dispatching; the first idle sample returns control to the outer loop. -/
def sbsWait : List Bool → Nat
  | [] => 0
  | pressed :: rest => if pressed then sbsWait rest else sbsPoll rest

end

/-- Specification-side count of press-release cycles in a sample list:
the number of samples that are pressed while the previous sample (initially
`prev`) was not, i.e. the number of maximal pressed runs. -/
def pressEdges (prev : Bool) : List Bool → Nat
  | [] => 0
  | a :: l => (if a && !prev then 1 else 0) + pressEdges a l

/-! ## Pulse mutual exclusion (GateServer/src/main.rs, `GATE_SBS` + `gate_sbs`)

Two HTTP request contexts may run `gate_sbs` concurrently; both execute
lock-acquire, set-high, delay 200 ms, set-low, lock-release on the shared
`GATE_SBS` mutex-guarded pin.  We model the interleaving as a small-step
relation: each task has a program counter in `0..5` over that five-step
program, and the mutex holder is `none` or the task id. -/

/-- Interleaving state of two concurrent `gate_sbs` invocations:
program counters of both tasks and the current holder of the `GATE_SBS`
mutex (`false` = task 1, `true` = task 2). -/
structure PulseSt where
  i1 : Nat
  i2 : Nat
  holder : Option Bool
deriving DecidableEq

/-- Both tasks start before the lock acquisition, with the mutex free. -/
def pulseInit : PulseSt := ⟨0, 0, none⟩

/-- A task's pulse is electrically high after it has executed `set_high`
(program counter past 1) and before it has executed `set_low` (program
counter at most 3). -/
def pulseHigh (i : Nat) : Prop := 2 ≤ i ∧ i ≤ 3

instance (i : Nat) : Decidable (pulseHigh i) := by
  unfold pulseHigh; infer_instance

/-- One interleaving step: either task executes its next instruction of
`gate_sbs` (acquire the mutex — only when free; set high; delay; set low;
release — only by the guard's owner, as a `MutexGuard` drop). -/
inductive PulseStep : PulseSt → PulseSt → Prop where
  | acq1 (s : PulseSt) : s.i1 = 0 → s.holder = none →
      PulseStep s ⟨1, s.i2, some false⟩
  | hi1 (s : PulseSt) : s.i1 = 1 → PulseStep s ⟨2, s.i2, s.holder⟩
  | dl1 (s : PulseSt) : s.i1 = 2 → PulseStep s ⟨3, s.i2, s.holder⟩
  | lo1 (s : PulseSt) : s.i1 = 3 → PulseStep s ⟨4, s.i2, s.holder⟩
  | rel1 (s : PulseSt) : s.i1 = 4 → s.holder = some false →
      PulseStep s ⟨5, s.i2, none⟩
  | acq2 (s : PulseSt) : s.i2 = 0 → s.holder = none →
      PulseStep s ⟨s.i1, 1, some true⟩
  | hi2 (s : PulseSt) : s.i2 = 1 → PulseStep s ⟨s.i1, 2, s.holder⟩
  | dl2 (s : PulseSt) : s.i2 = 2 → PulseStep s ⟨s.i1, 3, s.holder⟩
  | lo2 (s : PulseSt) : s.i2 = 3 → PulseStep s ⟨s.i1, 4, s.holder⟩
  | rel2 (s : PulseSt) : s.i2 = 4 → s.holder = some true →
      PulseStep s ⟨s.i1, 5, none⟩

/-- States reachable from the initial state by interleaving the two
concurrent `gate_sbs` invocations. -/
def PulseReachable (s : PulseSt) : Prop :=
  Relation.ReflTransGen PulseStep pulseInit s

/-- Lock invariant: a task whose program counter is strictly between the
acquire and the release owns the `GATE_SBS` mutex. -/
def PulseInv (s : PulseSt) : Prop :=
  (1 ≤ s.i1 ∧ s.i1 ≤ 4 → s.holder = some false) ∧
  (1 ≤ s.i2 ∧ s.i2 ≤ 4 → s.holder = some true)

/-! # Theorems -/

/-- C1: over all four combinations of the two boolean sensor readings,
`gate_status` returns Open (0) iff the opened-sensor signal is electrically
high, Closed (1) iff the opened-sensor signal is low and the closed-sensor
signal is high, and Intermediate (2) otherwise. -/
theorem gate_status_truth_table (openedHigh closedHigh : Bool) :
    (gate_status openedHigh closedHigh = 0 ↔ openedHigh = true) ∧
    (gate_status openedHigh closedHigh = 1 ↔
      (openedHigh = false ∧ closedHigh = true)) ∧
    (gate_status openedHigh closedHigh = 2 ↔
      (openedHigh = false ∧ closedHigh = false)) := by
  cases openedHigh <;> cases closedHigh <;> simp [gate_status]

/-- C2 counterexample: with neither sensor active (both pins electrically
high under active-low wiring), `gate_status` reports Open (0), not
Intermediate (2), because the opened-sensor-high branch takes precedence. -/
theorem gate_status_neither_active_gives_open :
    gate_status true true = 0 ∧ gate_status true true ≠ 2 := by decide

/-- C2 (amended): when both sensors are active (both pins electrically low)
`gate_status` resolves deterministically to Intermediate (2); when neither
sensor is active (both pins electrically high) it resolves deterministically
to Open (0), since the opened-sensor-high check is evaluated first. -/
theorem gate_status_ambiguity_resolution :
    gate_status false false = 2 ∧ gate_status true true = 0 := by decide

/-- C7: for every relay state, `gate_sbs` acquires the SBS pin lock, raises
the step output, holds it for the fixed 200 ms pulse, lowers it, releases
the lock, and replies with the exact body `{"s":2}` regardless of any gate
state; `gate_open` behaves identically on the full-cycle output.  Each
handler leaves its pin low and the other pin untouched. -/
theorem gate_pulse_handlers_behavior (s : RelayState) :
    (gate_sbs_handler s).2.1 =
      [SAction.lockAcquire .gateSbsPin, .setHigh .gateSbsPin, .delayMs 200,
       .setLow .gateSbsPin, .lockRelease .gateSbsPin] ∧
    (gate_sbs_handler s).2.2 = "\x7b\"s\":2\x7d" ∧
    (gate_sbs_handler s).1.sbsLevel = false ∧
    (gate_sbs_handler s).1.openLevel = s.openLevel ∧
    (gate_open_handler s).2.1 =
      [SAction.lockAcquire .gateOpenPin, .setHigh .gateOpenPin, .delayMs 200,
       .setLow .gateOpenPin, .lockRelease .gateOpenPin] ∧
    (gate_open_handler s).2.2 = "\x7b\"s\":2\x7d" ∧
    (gate_open_handler s).1.openLevel = false ∧
    (gate_open_handler s).1.sbsLevel = s.sbsLevel := by
  cases s
  simp [gate_sbs_handler, gate_open_handler]

/-- C6: immediately after a session is established on the Trigger Node,
exactly one GET to the open-command URL occurs before the button-polling
loop begins when the session baseline RSSI is strictly below the configured
threshold, and none occurs when it is at or above the threshold. -/
theorem trigger_startup_open_dispatch (cfg : TriggerConfig) (rssi : Int) :
    (rssi < cfg.max_rssi →
      countGet cfg.gate_open_url (trigger_startup cfg rssi) = 1) ∧
    (cfg.max_rssi ≤ rssi →
      countGet cfg.gate_open_url (trigger_startup cfg rssi) = 0) := by
  refine ⟨fun h => ?_, fun h => ?_⟩
  · simp [trigger_startup, if_pos h, countGet]
  · simp [trigger_startup, if_neg (not_lt.mpr h), countGet]

/-- Witness for C6: with the default configuration (threshold −80 dBm), a
session baseline of −85 dBm dispatches exactly one open command and a
baseline of −70 dBm dispatches none. -/
theorem trigger_startup_open_dispatch_witness :
    countGet "http/192.168.0.1/gate_open"
      (trigger_startup
        ⟨"ssid", "psk", -80, "http/192.168.0.1/gate_open",
         "http/192.168.0.1/gate_sbs"⟩ (-85)) = 1 ∧
    countGet "http/192.168.0.1/gate_open"
      (trigger_startup
        ⟨"ssid", "psk", -80, "http/192.168.0.1/gate_open",
         "http/192.168.0.1/gate_sbs"⟩ (-70)) = 0 :=
  ⟨(trigger_startup_open_dispatch
      ⟨"ssid", "psk", -80, "http/192.168.0.1/gate_open",
       "http/192.168.0.1/gate_sbs"⟩ (-85)).1 (by decide),
   (trigger_startup_open_dispatch
      ⟨"ssid", "psk", -80, "http/192.168.0.1/gate_open",
       "http/192.168.0.1/gate_sbs"⟩ (-70)).2 (by decide)⟩

/-- Joint induction for the poll loop: the outer loop counts pressed runs
with "previous sample idle", the release-wait loop with "previous sample
pressed". -/
theorem sbsPoll_sbsWait_eq_pressEdges (l : List Bool) :
    sbsPoll l = pressEdges false l ∧ sbsWait l = pressEdges true l := by
  induction l with
  | nil => simp [sbsPoll, sbsWait, pressEdges]
  | cons a l ih =>
    cases a <;> simp [sbsPoll, sbsWait, pressEdges, ih.1, ih.2]

/-- C8: over any finite sequence of button samples, the Trigger Node's poll
loop dispatches exactly one step command per press-release cycle: the number
of dispatches equals the number of maximal pressed runs, so no dispatch
repeats while the input stays low and a new dispatch requires the input to
be observed inactive first. -/
theorem sbsPoll_dispatch_once_per_press (samples : List Bool) :
    sbsPoll samples = pressEdges false samples :=
  (sbsPoll_sbsWait_eq_pressEdges samples).1

/-- C4 counterexample: the gate-status read path — reached from both the
`/gate_status` and `/` handlers — unwraps the result of
`set_pull(Pull::Floating)`, so a failing pin primitive terminates the
process with a panic. -/
theorem gate_status_run_panics_on_pull_error :
    gate_status_run ⟨false, false, true, true⟩ = .panicked := by decide

/-- The scan loop of `connect_wifi` never panics as long as the configured
SSID fits 32 bytes and the passphrase fits 64 bytes: the only `unwrap` in
the loop, `last_rssi.unwrap()`, executes after the latch was necessarily
set by the successful scan of the same iteration. -/
theorem connectLoop_no_panic (ssid psk : String) (auth : AuthMethod)
    (h3 : ssid.utf8ByteSize ≤ 32) (h4 : psk.utf8ByteSize ≤ 64) :
    ∀ (steps : List ScanStep) (lastRssi : Option Int),
      (connectLoop ssid psk auth lastRssi steps).1 ≠ .panicked := by
  intro steps
  induction steps with
  | nil => intro lastRssi; simp [connectLoop]
  | cons step rest ih =>
    intro lastRssi
    obtain ⟨scan, sc, co, ne, ip⟩ := step
    cases scan with
    | err => simp [connectLoop]
    | notFound => simpa [connectLoop] using ih none
    | found ch rssi =>
      have hs : ¬ 32 < ssid.utf8ByteSize := by omega
      have hp : ¬ 64 < psk.utf8ByteSize := by omega
      cases sc <;> cases co <;> cases ne <;> cases ip <;> cases lastRssi <;>
        simp [connectLoop, hs, hp] <;> apply ih

/-- C4 (amended): core paths do not terminate the process as long as the
underlying primitives succeed — a gate-status read with both `set_pull`
calls succeeding returns the truth-table value, and `connect_wifi` never
panics when the SSID and passphrase fit their fixed-size buffers; the
counterexample shows that a failing primitive is unwrapped and panics. -/
theorem core_ok_when_primitives_ok (e : PinEnv) (ssid psk : String)
    (setupOk : Bool) (steps : List ScanStep)
    (h1 : e.openedSetPullOk = true) (h2 : e.closedSetPullOk = true)
    (h3 : ssid.utf8ByteSize ≤ 32) (h4 : psk.utf8ByteSize ≤ 64) :
    gate_status_run e = .ok (gate_status e.openedHigh e.closedHigh) ∧
    (connect_wifi ssid psk setupOk steps).1 ≠ .panicked := by
  constructor
  · obtain ⟨o1, o2, c1, c2⟩ := e
    subst h1 h2
    cases o2 <;> cases c2 <;> simp [gate_status_run, gate_status]
  · unfold connect_wifi
    cases setupOk with
    | false => simp
    | true => simpa using connectLoop_no_panic ssid psk (authMethodOf psk) h3 h4 steps none

/-- Witness for the amended C4: with succeeding primitives and sensors
reading (opened high, closed high) the status read returns Open, and a
one-step successful connect trace does not panic. -/
theorem core_ok_when_primitives_ok_witness :
    gate_status_run ⟨true, true, true, true⟩ = .ok (gate_status true true) ∧
    (connect_wifi "net" "pw123456" true
      [⟨.found 3 (-60), true, true, true, true⟩]).1 ≠ .panicked :=
  core_ok_when_primitives_ok ⟨true, true, true, true⟩ "net" "pw123456" true
    [⟨.found 3 (-60), true, true, true, true⟩]
    (by decide) (by decide) (by decide) (by decide)

/-- C3 counterexample: a failing `wifi.scan()` call is propagated by the
`?` operator, so `connect_wifi` returns an `Err` to its caller instead of
restarting the scan loop. -/
theorem connect_wifi_scan_error_returns_error :
    (connect_wifi "net" "pw123456" true
      [⟨.err, true, true, true, true⟩]).1 = .error := by decide

/-- The scan loop restarts on a not-found scan, a failed association or a
failed DHCP wait; when a trace contains only such failures (no scan error,
no `set_configuration` error, no `get_ip_info` error), the loop either is
still spinning when the trace ends or has returned a connected session. -/
theorem connectLoop_nonfatal (ssid psk : String) (auth : AuthMethod)
    (h3 : ssid.utf8ByteSize ≤ 32) (h4 : psk.utf8ByteSize ≤ 64) :
    ∀ (steps : List ScanStep) (lastRssi : Option Int),
      (∀ s ∈ steps, s.scan ≠ .err ∧ s.setConfOk = true ∧ s.ipInfoOk = true) →
      (connectLoop ssid psk auth lastRssi steps).1 = .looping ∨
      ∃ r, (connectLoop ssid psk auth lastRssi steps).1 = .ok r := by
  intro steps
  induction steps with
  | nil => intro lastRssi _; left; simp [connectLoop]
  | cons step rest ih =>
    intro lastRssi h
    obtain ⟨scan, sc, co, ne, ip⟩ := step
    obtain ⟨hserr, hsc, hip⟩ := h _ (List.mem_cons_self _ _)
    have hrest := fun s hs => h s (List.mem_cons_of_mem _ hs)
    cases scan with
    | err => exact absurd rfl hserr
    | notFound => simpa [connectLoop] using ih none hrest
    | found ch rssi =>
      have hs : ¬ 32 < ssid.utf8ByteSize := by omega
      have hp : ¬ 64 < psk.utf8ByteSize := by omega
      simp only at hsc hip
      subst hsc hip
      cases co <;> cases lastRssi <;> cases ne <;>
        simp [connectLoop, hs, hp] <;> exact ih _ hrest

/-- C3 (amended): within `connect_wifi`, a not-found scan, a failed
association and a failed DHCP wait are non-fatal and restart the scan loop,
so in their presence alone the function loops until it returns fully
connected; but an error from `scan()`, `set_configuration` or
`get_ip_info()` (and from the pre-loop setup) is returned as `Err` to the
caller. -/
theorem connect_wifi_nonfatal (ssid psk : String) (steps : List ScanStep)
    (h3 : ssid.utf8ByteSize ≤ 32) (h4 : psk.utf8ByteSize ≤ 64)
    (h : ∀ s ∈ steps, s.scan ≠ .err ∧ s.setConfOk = true ∧ s.ipInfoOk = true) :
    (connect_wifi ssid psk true steps).1 = .looping ∨
    ∃ r, (connect_wifi ssid psk true steps).1 = .ok r := by
  unfold connect_wifi
  simpa using connectLoop_nonfatal ssid psk (authMethodOf psk) h3 h4 steps none h

/-- Witness for the amended C3: a trace with one failed association, one
not-found scan, one failed DHCP wait and then a clean success never errors
out — `connect_wifi` returns a connected session. -/
theorem connect_wifi_nonfatal_witness :
    (connect_wifi "net" "pw123456" true
      [⟨.found 3 (-60), true, false, true, true⟩,
       ⟨.notFound, true, true, true, true⟩,
       ⟨.found 3 (-62), true, true, false, true⟩,
       ⟨.found 3 (-64), true, true, true, true⟩]).1 = .looping ∨
    ∃ r, (connect_wifi "net" "pw123456" true
      [⟨.found 3 (-60), true, false, true, true⟩,
       ⟨.notFound, true, true, true, true⟩,
       ⟨.found 3 (-62), true, true, false, true⟩,
       ⟨.found 3 (-64), true, true, true, true⟩]).1 = .ok r :=
  connect_wifi_nonfatal "net" "pw123456"
    [⟨.found 3 (-60), true, false, true, true⟩,
     ⟨.notFound, true, true, true, true⟩,
     ⟨.found 3 (-62), true, true, false, true⟩,
     ⟨.found 3 (-64), true, true, true, true⟩]
    (by decide) (by decide) (by decide)

/-- C5 counterexample: after scan 1 finds the network at −70 dBm but the
association fails, scan 2 does not find it (`last_rssi` is reset to `None`),
and scan 3 finds it at −60 dBm and connects, `connect_wifi` returns −60 —
the first-observed RSSI of the session, −70, was overwritten within the
same session. -/
theorem connect_wifi_baseline_overwritten :
    (connect_wifi "net" "pw123456" true
      [⟨.found 6 (-70), true, false, true, true⟩,
       ⟨.notFound, true, true, true, true⟩,
       ⟨.found 6 (-60), true, true, true, true⟩]).1 = .ok (-60) ∧
    firstFoundRssi
      [⟨.found 6 (-70), true, false, true, true⟩,
       ⟨.notFound, true, true, true, true⟩,
       ⟨.found 6 (-60), true, true, true, true⟩] = some (-70) ∧
    (-60 : Int) ≠ -70 := by decide

/-- If the scan loop returns a connected session, the reported RSSI is the
latched baseline: the incoming latch value if it was set, otherwise the
first RSSI found in the remaining trace — provided every scan finds the
network, so the latch is never reset. -/
theorem connectLoop_ok_rssi (ssid psk : String) (auth : AuthMethod) :
    ∀ (steps : List ScanStep) (lastRssi : Option Int) (r : Int),
      (∀ s ∈ steps, s.scan.isFound = true) →
      (connectLoop ssid psk auth lastRssi steps).1 = .ok r →
      lastRssi = some r ∨ (lastRssi = none ∧ firstFoundRssi steps = some r) := by
  intro steps
  induction steps with
  | nil => intro lastRssi r _ hok; simp [connectLoop] at hok
  | cons step rest ih =>
    intro lastRssi r h hok
    obtain ⟨scan, sc, co, ne, ip⟩ := step
    have hfound := h _ (List.mem_cons_self _ _)
    have hrest := fun s hs => h s (List.mem_cons_of_mem _ hs)
    cases scan with
    | err => simp [ScanOutcome.isFound] at hfound
    | notFound => simp [ScanOutcome.isFound] at hfound
    | found ch rssi =>
      by_cases hs : 32 < ssid.utf8ByteSize
      · simp [connectLoop, hs] at hok
      · by_cases hp : 64 < psk.utf8ByteSize
        · simp [connectLoop, hs, hp] at hok
        · cases sc with
          | false => simp [connectLoop, hs, hp] at hok
          | true =>
            cases lastRssi with
            | none =>
              cases co with
              | false =>
                simp only [connectLoop, hs, hp] at hok
                simp at hok
                rcases ih (some rssi) r hrest hok with hr | ⟨hn, _⟩
                · right
                  refine ⟨rfl, ?_⟩
                  simp [firstFoundRssi]
                  exact (Option.some.injEq .. ▸ hr).symm ▸ rfl
                · cases hn
              | true =>
                cases ne with
                | false =>
                  simp only [connectLoop, hs, hp] at hok
                  simp at hok
                  rcases ih (some rssi) r hrest hok with hr | ⟨hn, _⟩
                  · right
                    refine ⟨rfl, ?_⟩
                    simp [firstFoundRssi]
                    exact (Option.some.injEq .. ▸ hr).symm ▸ rfl
                  · cases hn
                | true =>
                  cases ip with
                  | false => simp [connectLoop, hs, hp] at hok
                  | true =>
                    simp [connectLoop, hs, hp] at hok
                    right
                    exact ⟨rfl, by simp [firstFoundRssi, hok]⟩
            | some v =>
              cases co with
              | false =>
                simp only [connectLoop, hs, hp] at hok
                simp at hok
                rcases ih (some v) r hrest hok with hr | ⟨hn, _⟩
                · exact Or.inl hr
                · cases hn
              | true =>
                cases ne with
                | false =>
                  simp only [connectLoop, hs, hp] at hok
                  simp at hok
                  rcases ih (some v) r hrest hok with hr | ⟨hn, _⟩
                  · exact Or.inl hr
                  · cases hn
                | true =>
                  cases ip with
                  | false => simp [connectLoop, hs, hp] at hok
                  | true =>
                    simp [connectLoop, hs, hp] at hok
                    exact Or.inl (by simp [hok])

/-- C5 (amended): the RSSI returned by `connect_wifi` is the signal strength
observed on the first scan of the session **provided every scan of the
session finds the target network**; a scan that fails to find the network
resets the `last_rssi` latch, after which the next successful scan records a
new baseline (see the counterexample). -/
theorem connect_wifi_baseline_first_found (ssid psk : String)
    (steps : List ScanStep) (r : Int)
    (hall : ∀ s ∈ steps, s.scan.isFound = true)
    (hok : (connect_wifi ssid psk true steps).1 = .ok r) :
    firstFoundRssi steps = some r := by
  unfold connect_wifi at hok
  simp at hok
  rcases connectLoop_ok_rssi ssid psk (authMethodOf psk) steps none r hall hok
    with hr | ⟨_, hf⟩
  · cases hr
  · exact hf

/-- Witness for the amended C5: with every scan finding the network, the
baseline −55 dBm of the first scan survives a failed association and a
stronger later reading, and is the RSSI returned. -/
theorem connect_wifi_baseline_first_found_witness :
    firstFoundRssi
      [⟨.found 1 (-55), true, false, true, true⟩,
       ⟨.found 1 (-40), true, true, true, true⟩] = some (-55) :=
  connect_wifi_baseline_first_found "net" "pw123456"
    [⟨.found 1 (-55), true, false, true, true⟩,
     ⟨.found 1 (-40), true, true, true, true⟩] (-55)
    (by decide) (by decide)

/-- Every client configuration handed to `set_configuration` inside the
scan loop carries the auth method computed before the loop. -/
theorem connectLoop_attempts_auth (ssid psk : String) (auth : AuthMethod) :
    ∀ (steps : List ScanStep) (lastRssi : Option Int) (conf : ClientConf),
      conf ∈ (connectLoop ssid psk auth lastRssi steps).2 →
      conf.authMethod = auth := by
  intro steps
  induction steps with
  | nil => intro lastRssi conf h; simp [connectLoop] at h
  | cons step rest ih =>
    intro lastRssi conf h
    obtain ⟨scan, sc, co, ne, ip⟩ := step
    cases scan with
    | err => simp [connectLoop] at h
    | notFound =>
      simp only [connectLoop] at h
      exact ih none conf h
    | found ch rssi =>
      by_cases hs : 32 < ssid.utf8ByteSize
      · simp [connectLoop, hs] at h
      · by_cases hp : 64 < psk.utf8ByteSize
        · simp [connectLoop, hs, hp] at h
        · cases sc <;> cases co <;> cases ne <;> cases ip <;> cases lastRssi <;>
            simp [connectLoop, hs, hp] at h <;>
            rcases h with rfl | h <;>
            first
              | rfl
              | exact ih _ conf h

/-- C10: the auth method of every association attempt made by
`connect_wifi` is determined by the passphrase alone — an empty psk attempts
an open (no-authentication) association and a non-empty psk uses
WPA2-Personal. -/
theorem connect_wifi_auth_from_psk (ssid psk : String) (setupOk : Bool)
    (steps : List ScanStep) (conf : ClientConf)
    (h : conf ∈ (connect_wifi ssid psk setupOk steps).2) :
    conf.authMethod =
      (if psk = "" then AuthMethod.noAuth else AuthMethod.wpa2Personal) := by
  unfold connect_wifi at h
  cases setupOk with
  | false => simp at h
  | true =>
    simp only [Bool.not_true, if_neg] at h
    have := connectLoop_attempts_auth ssid psk (authMethodOf psk) steps none conf
      (by simpa using h)
    rw [this]
    unfold authMethodOf
    by_cases hp : psk = ""
    · simp [hp, String.isEmpty_iff]
    · simp [hp, String.isEmpty_iff]

/-- Witness for C10: a successful one-scan session with the non-empty
passphrase "pw123456" records exactly one association attempt, and its auth
method is WPA2-Personal. -/
theorem connect_wifi_auth_from_psk_witness :
    (⟨"net", "pw123456", some 3, .wpa2Personal⟩ : ClientConf).authMethod =
      (if ("pw123456" : String) = "" then AuthMethod.noAuth
       else AuthMethod.wpa2Personal) :=
  connect_wifi_auth_from_psk "net" "pw123456" true
    [⟨.found 3 (-60), true, true, true, true⟩]
    ⟨"net", "pw123456", some 3, .wpa2Personal⟩ (by decide)

/-- The lock invariant holds initially: both tasks are before the acquire
and the mutex is free. -/
theorem pulseInv_init : PulseInv pulseInit :=
  ⟨fun h => absurd h (by decide), fun h => absurd h (by decide)⟩

/-- The lock invariant is preserved by every interleaving step. -/
theorem pulseInv_step {s t : PulseSt} (hstep : PulseStep s t)
    (hinv : PulseInv s) : PulseInv t := by
  obtain ⟨h1, h2⟩ := hinv
  cases hstep with
  | acq1 hi hh =>
    refine ⟨fun _ => rfl, fun hr => ?_⟩
    rw [hh] at h2; exact absurd (h2 hr) (by simp)
  | hi1 hi => exact ⟨fun _ => h1 (by omega), fun hr => h2 hr⟩
  | dl1 hi => exact ⟨fun _ => h1 (by omega), fun hr => h2 hr⟩
  | lo1 hi => exact ⟨fun _ => h1 (by omega), fun hr => h2 hr⟩
  | rel1 hi hh =>
    refine ⟨fun hr => by simp at hr, fun hr => ?_⟩
    rw [hh] at h2; exact absurd (h2 hr) (by simp)
  | acq2 hi hh =>
    refine ⟨fun hr => ?_, fun _ => rfl⟩
    rw [hh] at h1; exact absurd (h1 hr) (by simp)
  | hi2 hi => exact ⟨fun hr => h1 hr, fun _ => h2 (by omega)⟩
  | dl2 hi => exact ⟨fun hr => h1 hr, fun _ => h2 (by omega)⟩
  | lo2 hi => exact ⟨fun hr => h1 hr, fun _ => h2 (by omega)⟩
  | rel2 hi hh =>
    refine ⟨fun hr => ?_, fun hr => by simp at hr⟩
    rw [hh] at h1; exact absurd (h1 hr) (by simp)

/-- The lock invariant holds in every reachable interleaving state. -/
theorem pulseInv_reachable {s : PulseSt} (h : PulseReachable s) :
    PulseInv s := by
  induction h with
  | refl => exact pulseInv_init
  | tail _ hstep ih => exact pulseInv_step hstep ih

/-- C9: in every state reachable by interleaving two concurrent `gate_sbs`
pulse requests, the two electrically-high intervals never overlap — at most
one task holds the step output high, because both are serialized behind the
`GATE_SBS` mutex. -/
theorem pulse_mutual_exclusion (s : PulseSt) (h : PulseReachable s) :
    ¬ (pulseHigh s.i1 ∧ pulseHigh s.i2) := by
  rintro ⟨⟨h21, h31⟩, ⟨h22, h32⟩⟩
  obtain ⟨h1, h2⟩ := pulseInv_reachable h
  have e1 := h1 ⟨by omega, by omega⟩
  have e2 := h2 ⟨by omega, by omega⟩
  rw [e1] at e2
  exact absurd e2 (by simp)

/-- Witness for C9: the initial state is reachable and satisfies the
mutual-exclusion property. -/
theorem pulse_mutual_exclusion_witness :
    ¬ (pulseHigh pulseInit.i1 ∧ pulseHigh pulseInit.i2) :=
  pulse_mutual_exclusion pulseInit Relation.ReflTransGen.refl

end GateRTO
